import Mathlib

set_option maxRecDepth 8000

/-!
Shallow embedding of the media-dashboard backend-adapter layer
(src/api/jackett.rs, src/api/transmission.rs, src/api/sonarr.rs,
src/api/plex.rs, src/api/emby.rs and the config/aggregator handlers in
src/main.rs). Strings are modelled as lists of characters; the Rust
substring search str::find is modelled by findSub below.
-/

/-- Rust: resp.status().is_success(), true exactly for 2xx codes. -/
def isSuccess (s : Nat) : Bool := 200 ≤ s && s ≤ 299

/-- isPfx n s: the list n is a prefix of the list s. -/
def isPfx : List Char → List Char → Bool
  | [], _ => true
  | _ :: _, [] => false
  | a :: as, b :: bs => a == b && isPfx as bs

/-- Rust str::find with a string pattern: index of the first occurrence
of needle in s, none if it does not occur. -/
def findSub (s needle : List Char) : Option Nat :=
  if isPfx needle s then some 0
  else
    match s with
    | [] => none
    | _ :: t => (findSub t needle).map (· + 1)

/-- Rust str::find with a char pattern. -/
def findChar : List Char → Char → Option Nat
  | [], _ => none
  | a :: t, c => if a == c then some 0 else (findChar t c).map (· + 1)

/-- Rust str::contains with a string pattern. -/
def containsSub (s needle : List Char) : Bool := (findSub s needle).isSome

/-- Rust str::trim (whitespace at both ends removed). -/
def trimChars (s : List Char) : List Char :=
  ((s.dropWhile Char.isWhitespace).reverse.dropWhile Char.isWhitespace).reverse

/-- src/api/jackett.rs extract_attr: find the first occurrence of
attr="; the value runs to the next double quote; values of length
200 or more are rejected (None). -/
def extract_attr (s attr : List Char) : Option (List Char) :=
  let needle := attr ++ ['=', '"']
  match findSub s needle with
  | none => none
  | some st =>
    let s2 := s.drop (st + needle.length)
    match findChar s2 '"' with
    | none => none
    | some e => if e < 200 then some (s2.take e) else none

/-- src/api/jackett.rs extract_tag: text between <tag> and </tag>,
trimmed, rejected when 500 chars or more. -/
def extract_tag (s tag : List Char) : Option (List Char) :=
  let opn := '<' :: tag ++ ['>']
  let cls := '<' :: '/' :: tag ++ ['>']
  match findSub s opn with
  | none => none
  | some st =>
    let s2 := s.drop (st + opn.length)
    match findSub s2 cls with
    | none => none
    | some e => if e < 500 then some (trimChars (s2.take e)) else none

structure IndexerRecord where
  id : List Char
  name : List Char
  itype : List Char
  configured : Bool
deriving DecidableEq

/-- The literal marker "<indexer " used by both Jackett scanning passes. -/
def indexerMarker : List Char := "<indexer ".toList

/-- The while-let loop of src/api/jackett.rs list_indexers, phrased as a
fuel-indexed structural recursion; each iteration consumes at least 9
characters, so fuel = length of the document suffices (see scanLoop_fuel). -/
def scanLoop : Nat → List Char → List IndexerRecord
  | 0, _ => []
  | fuel + 1, remaining =>
    match findSub remaining indexerMarker with
    | none => []
    | some st =>
      let rem := remaining.drop (st + 9)
      let id := (extract_attr rem "id".toList).getD []
      let itype := (extract_attr rem "type".toList).getD "public".toList
      let name := (extract_tag rem "title".toList).getD id
      let configured := ((extract_attr rem "configured".toList).map
        (fun v => v == "true".toList)).getD false
      (if configured then [⟨id, name, itype, configured⟩] else []) ++ scanLoop fuel rem

/-- src/api/jackett.rs list_indexers, restricted to its pure XML-scanning
loop (lines 79-102): the records pushed for a given document. -/
def scanIndexers (xml : List Char) : List IndexerRecord := scanLoop xml.length xml

/-- The while-let loop of src/api/jackett.rs count_configured_indexers,
fuel-indexed like scanLoop. -/
def countLoop : Nat → List Char → Int
  | 0, _ => 0
  | fuel + 1, search =>
    match findSub search indexerMarker with
    | none => 0
    | some pos =>
      let tag_slice := (search.drop pos).take 300
      (if containsSub tag_slice ("configured=\"true\"".toList) then 1 else 0)
        + countLoop fuel (search.drop (pos + 9))

/-- src/api/jackett.rs count_configured_indexers. -/
def count_configured_indexers (xml : List Char) : Int := countLoop xml.length xml

/-- Modelled from the spec (section 4.2 / section 8): the fragments of a
document are the stretches of text from just after each "<indexer "
marker up to the next marker (or the end of the document). -/
def specFragments : Nat → List Char → List (List Char)
  | 0, _ => []
  | fuel + 1, s =>
    match findSub s indexerMarker with
    | none => []
    | some i =>
      let rest := s.drop (i + 9)
      match findSub rest indexerMarker with
      | none => [rest]
      | some j => rest.take j :: specFragments fuel (rest.drop j)

/-- Modelled from the spec (section 8): the number M of indexer fragments
of a document that carry the token configured="true". -/
def specConfiguredCount (s : List Char) : Int :=
  ((specFragments s.length s).filter
    (fun f => containsSub f ("configured=\"true\"".toList))).length

/-- Counterexample document for the scan/count agreement claim: two
indexer fragments, only the second of which carries configured="true". -/
def exDoc5 : List Char :=
  "<indexer id=\"a\"></indexer><indexer id=\"b\" configured=\"true\"></indexer>".toList

/-- Document showing cross-fragment data pickup: the first fragment has
neither a title element nor a configured attribute of its own. -/
def exDoc10 : List Char :=
  "<indexer id=\"a\"></indexer><indexer id=\"b\" configured=\"true\"><title>BT</title></indexer>".toList

/-! JSON values (serde_json::Value) and the uniform ServiceStatus record
of src/api/mod.rs. -/

inductive Json where
  | null
  | jbool (b : Bool)
  | num (n : Int)
  | str (s : List Char)
  | arr (elems : List Json)
  | obj (fields : List (List Char × Json))

structure ServiceStatus where
  name : List Char
  active : Bool
  message : List Char
  version : Option (List Char)
  extras : Option Json

/-- Decimal digits of a Nat, via a fuel-indexed helper. -/
def natToCharsAux : Nat → Nat → List Char
  | 0, _ => []
  | fuel + 1, n =>
    if n < 10 then [Char.ofNat (48 + n)]
    else natToCharsAux fuel (n / 10) ++ [Char.ofNat (48 + n % 10)]

def natToChars (n : Nat) : List Char := natToCharsAux (n + 1) n

/-- The canonical reason phrase appended by the Display instance of
http::StatusCode (table restricted to the codes this development uses). -/
def statusReason (s : Nat) : List Char :=
  if s = 200 then " OK".toList
  else if s = 404 then " Not Found".toList
  else if s = 409 then " Conflict".toList
  else if s = 500 then " Internal Server Error".toList
  else []

/-- Rust format!("{}", resp.status()): code followed by reason phrase. -/
def statusDisplay (s : Nat) : List Char := natToChars s ++ statusReason s

/-! Transmission RPC client (src/api/transmission.rs rpc_request).
The HTTP transport is an oracle: send n is the outcome of the n-th POST
the client issues (error = transport failure, otherwise a response).
The client's outgoing requests are returned as a trace so that theorems
can speak about how many requests were issued and with which headers. -/

structure RpcResp where
  status : Nat
  sessionId : Option (List Char)
  parsed : Option Json

structure RpcCall where
  endpoint : List Char
  sessionHeader : Option (List Char)
  auth : Option (List Char × List Char)
  body : Json

inductive RpcError where
  | transport (e : List Char)
  | parse
  | http (status : Nat)

/-- src/api/transmission.rs rpc_request (lines 39-80): first POST; on a
409 read the X-Transmission-Session-Id header (absent gives the empty
string), retry once with that header and the same body, and return the
retry's parsed body; on 2xx return the first response's parsed body; on
any other status fail with the status code. -/
def rpc_request (send : Nat → Except (List Char) RpcResp)
    (url user pass : List Char) (body : Json) :
    Except RpcError Json × List RpcCall :=
  let endpoint := url ++ "/transmission/rpc".toList
  let auth := if user.isEmpty then none else some (user, pass)
  let req1 : RpcCall := ⟨endpoint, none, auth, body⟩
  match send 0 with
  | .error e => (.error (.transport e), [req1])
  | .ok resp =>
    if resp.status = 409 then
      let session_id := resp.sessionId.getD []
      let req2 : RpcCall := ⟨endpoint, some session_id, auth, body⟩
      match send 1 with
      | .error e => (.error (.transport e), [req1, req2])
      | .ok resp2 =>
        match resp2.parsed with
        | some v => (.ok v, [req1, req2])
        | none => (.error .parse, [req1, req2])
    else if isSuccess resp.status then
      match resp.parsed with
      | some v => (.ok v, [req1])
      | none => (.error .parse, [req1])
    else (.error (.http resp.status), [req1])

/-! Per-backend status adapters. Each is a function of the outcome of
its primary HTTP call (error = transport failure with the error's
display string, ok = status code plus whatever of the body that adapter
inspects) and of the data its separate secondary calls produced. -/

/-- src/api/sonarr.rs get_status: the primary outcome carries the parse
attempt of the body as SystemStatus (some version, or none on parse
failure); extras is the value built by the separate fetch_extras calls. -/
def sonarr_get_status (primary : Except (List Char) (Nat × Option (List Char)))
    (extras : Json) : ServiceStatus :=
  match primary with
  | .ok (st, parsed) =>
    if isSuccess st then
      match parsed with
      | some version =>
        ⟨"Sonarr".toList, true, "Running".toList, some version, some extras⟩
      | none => ⟨"Sonarr".toList, true, "Parse Error".toList, none, none⟩
    else ⟨"Sonarr".toList, false, "HTTP ".toList ++ statusDisplay st, none, none⟩
  | .error e => ⟨"Sonarr".toList, false, e, none, none⟩

/-- One Plex session as far as get_status reads it: optional title and
optional user title (the player field is not used by get_status). -/
structure PlexSession where
  title : Option (List Char)
  user : Option (List Char)

/-- The parsed MediaContainer of src/api/plex.rs. -/
structure MediaContainer where
  size : Nat
  metadata : Option (List PlexSession)

/-- src/api/plex.rs get_status: primary outcome carries the status code
and the parse attempt (error carries the serde error display string). -/
def plex_get_status (primary : Except (List Char) (Nat × Except (List Char) MediaContainer)) :
    ServiceStatus :=
  match primary with
  | .ok (st, parsed) =>
    if isSuccess st then
      match parsed with
      | .ok mc =>
        let names := (mc.metadata.getD []).map (fun s =>
          (s.title.getD "Unknown".toList) ++ " (".toList ++ (s.user.getD "Unknown".toList) ++ ")".toList)
        ⟨"Plex".toList, true, natToChars mc.size ++ " active session(s)".toList, none,
          some (Json.obj [("active_sessions".toList, Json.num mc.size),
                          ("sessions".toList, Json.arr (names.map Json.str))])⟩
      | .error e => ⟨"Plex".toList, true, "Parse Error: ".toList ++ e, none, none⟩
    else ⟨"Plex".toList, false, "HTTP ".toList ++ statusDisplay st, none, none⟩
  | .error e => ⟨"Plex".toList, false, e, none, none⟩

/-- One Emby session as get_status reads it. -/
structure EmbySession where
  userName : Option (List Char)
  nowPlaying : Option (List Char)

/-- src/api/emby.rs get_status. -/
def emby_get_status (primary : Except (List Char) (Nat × Except (List Char) (List EmbySession))) :
    ServiceStatus :=
  match primary with
  | .ok (st, parsed) =>
    if isSuccess st then
      match parsed with
      | .ok sessions =>
        let act := sessions.filter (fun s => s.nowPlaying.isSome)
        let names := act.map (fun s =>
          (s.nowPlaying.getD "Unknown".toList) ++ " (".toList ++ (s.userName.getD "Unknown".toList) ++ ")".toList)
        ⟨"Emby".toList, true, natToChars act.length ++ " active session(s)".toList, none,
          some (Json.obj [("active_sessions".toList, Json.num act.length),
                          ("sessions".toList, Json.arr (names.map Json.str))])⟩
      | .error e => ⟨"Emby".toList, true, "Parse Error: ".toList ++ e, none, none⟩
    else ⟨"Emby".toList, false, "HTTP ".toList ++ statusDisplay st, none, none⟩
  | .error e => ⟨"Emby".toList, false, e, none, none⟩

/-- src/api/transmission.rs get_status (lines 82-123): the primary
session-get response body is never parsed, only the status is checked
(2xx or 409 count as alive); on the alive path extras is always present,
carrying whatever value fetch_extras produced (fetch_extras returns an
empty object rather than failing). -/
def transmission_get_status (primary : Except (List Char) (Nat × Option Json))
    (extras : Json) : ServiceStatus :=
  match primary with
  | .ok (st, _bodyParse) =>
    if isSuccess st || st = 409 then
      ⟨"Transmission".toList, true, "Running".toList, none, some extras⟩
    else ⟨"Transmission".toList, false, "HTTP ".toList ++ statusDisplay st, none, none⟩
  | .error e => ⟨"Transmission".toList, false, e, none, none⟩

/-- src/api/jackett.rs get_status (lines 4-60): primary outcome carries
the status and raw body text (the body is only used in the failure
branch); secondary is the torznab XML when that separate call and its
text() both succeeded. -/
def jackett_get_status (primary : Except (List Char) (Nat × List Char))
    (secondary : Option (List Char)) : ServiceStatus :=
  match primary with
  | .ok (st, body) =>
    if isSuccess st then
      let total := match secondary with
        | some xml => count_configured_indexers xml
        | none => 0
      ⟨"Jackett".toList, true, "Running".toList, none,
        some (Json.obj [("total_indexers".toList, Json.num total),
                        ("failed_count".toList, Json.num 0),
                        ("failed_indexers".toList, Json.arr [])])⟩
    else ⟨"Jackett".toList, false, "HTTP — ".toList ++ body.take 80, none, none⟩
  | .error e => ⟨"Jackett".toList, false, "Connection error: ".toList ++ e, none, none⟩

/-- Modelled from the spec: the Radarr adapter's get_status is declared
in src/api/mod.rs and polled by main.rs but its source file is absent
from src/. Per the spec (sections 2 and 4.4) the movie manager is a
Sonarr/Radarr-like adapter with the common algorithm shape: transport
failure gives active = false with the error text, a non-success status
gives active = false with an HTTP-status-derived message, a success
whose body parses gives active = true with version and extras, and a
parse failure gives active = true with a parse-error message and no
extras. -/
def radarr_get_status (primary : Except (List Char) (Nat × Option (List Char)))
    (extras : Json) : ServiceStatus :=
  match primary with
  | .ok (st, parsed) =>
    if isSuccess st then
      match parsed with
      | some version =>
        ⟨"Radarr".toList, true, "Running".toList, some version, some extras⟩
      | none => ⟨"Radarr".toList, true, "Parse Error".toList, none, none⟩
    else ⟨"Radarr".toList, false, "HTTP ".toList ++ statusDisplay st, none, none⟩
  | .error e => ⟨"Radarr".toList, false, e, none, none⟩

/-- Modelled from the spec: the Jellyfin adapter's get_status is
declared in src/api/mod.rs and polled by main.rs but its source file is
absent from src/. Per the spec (sections 2 and 4.4) it is a
streaming-server adapter of the Emby shape: the primary call's body is
parsed as a session list; a non-success status gives active = false
with an HTTP-status-derived message, a parse failure gives active =
true with a parse-error message and no extras, and a parsed session
list gives active = true with session extras. -/
def jellyfin_get_status
    (primary : Except (List Char) (Nat × Except (List Char) (List EmbySession))) :
    ServiceStatus :=
  match primary with
  | .ok (st, parsed) =>
    if isSuccess st then
      match parsed with
      | .ok sessions =>
        let act := sessions.filter (fun s => s.nowPlaying.isSome)
        let names := act.map (fun s =>
          (s.nowPlaying.getD "Unknown".toList) ++ " (".toList ++ (s.userName.getD "Unknown".toList) ++ ")".toList)
        ⟨"Jellyfin".toList, true, natToChars act.length ++ " active session(s)".toList, none,
          some (Json.obj [("active_sessions".toList, Json.num act.length),
                          ("sessions".toList, Json.arr (names.map Json.str))])⟩
      | .error e => ⟨"Jellyfin".toList, true, "Parse Error: ".toList ++ e, none, none⟩
    else ⟨"Jellyfin".toList, false, "HTTP ".toList ++ statusDisplay st, none, none⟩
  | .error e => ⟨"Jellyfin".toList, false, e, none, none⟩

/-! Dashboard configuration (struct Config in src/main.rs) and the
masking / merging performed by get_dashboard_config and
update_dashboard_config. -/

structure Config where
  sonarr_url : List Char
  sonarr_key : List Char
  radarr_url : List Char
  radarr_key : List Char
  jackett_url : List Char
  jackett_key : List Char
  transmission_url : List Char
  transmission_user : List Char
  transmission_pass : List Char
  plex_url : List Char
  plex_token : List Char
  jellyfin_url : List Char
  jellyfin_key : List Char
  emby_url : List Char
  emby_key : List Char
deriving DecidableEq

/-- The mask sentinel "********" of src/main.rs. -/
def maskSentinel : List Char := "********".toList

/-- src/main.rs get_dashboard_config (lines 271-286): the read-path mask.
Each of the seven fields sonarr_key, radarr_key, jackett_key,
transmission_pass, plex_token, jellyfin_key, emby_key is replaced by the
sentinel when non-empty; every other field is returned unchanged. -/
def get_dashboard_config (c : Config) : Config :=
  { c with
    sonarr_key := if c.sonarr_key.isEmpty then c.sonarr_key else maskSentinel,
    radarr_key := if c.radarr_key.isEmpty then c.radarr_key else maskSentinel,
    jackett_key := if c.jackett_key.isEmpty then c.jackett_key else maskSentinel,
    transmission_pass := if c.transmission_pass.isEmpty then c.transmission_pass else maskSentinel,
    plex_token := if c.plex_token.isEmpty then c.plex_token else maskSentinel,
    jellyfin_key := if c.jellyfin_key.isEmpty then c.jellyfin_key else maskSentinel,
    emby_key := if c.emby_key.isEmpty then c.emby_key else maskSentinel }

/-- src/main.rs update_dashboard_config (lines 288-310): the write-path
merge. The incoming payload replaces the stored config wholesale, except
that each of the same seven fields is taken from the stored config when
the incoming value equals the sentinel exactly. -/
def update_dashboard_config (stored payload : Config) : Config :=
  { payload with
    sonarr_key := if payload.sonarr_key = maskSentinel then stored.sonarr_key else payload.sonarr_key,
    radarr_key := if payload.radarr_key = maskSentinel then stored.radarr_key else payload.radarr_key,
    jackett_key := if payload.jackett_key = maskSentinel then stored.jackett_key else payload.jackett_key,
    transmission_pass := if payload.transmission_pass = maskSentinel then stored.transmission_pass else payload.transmission_pass,
    plex_token := if payload.plex_token = maskSentinel then stored.plex_token else payload.plex_token,
    jellyfin_key := if payload.jellyfin_key = maskSentinel then stored.jellyfin_key else payload.jellyfin_key,
    emby_key := if payload.emby_key = maskSentinel then stored.emby_key else payload.emby_key }

/-! Status aggregator (src/main.rs get_all_status, lines 151-181).
Each adapter call always yields a ServiceStatus (no branch of an adapter
can raise), so the outcomes of the seven adapter calls are modelled as a
total function from backends to statuses. -/

inductive Backend where
  | plex | sonarr | radarr | jackett | transmission | jellyfin | emby
deriving DecidableEq

/-- The connection URL of a backend inside a configuration. -/
def urlOf (c : Config) : Backend → List Char
  | .plex => c.plex_url
  | .sonarr => c.sonarr_url
  | .radarr => c.radarr_url
  | .jackett => c.jackett_url
  | .transmission => c.transmission_url
  | .jellyfin => c.jellyfin_url
  | .emby => c.emby_url

/-- The fixed order in which get_all_status polls the backends. -/
def backendOrder : List Backend :=
  [.plex, .sonarr, .radarr, .jackett, .transmission, .jellyfin, .emby]

/-- src/main.rs get_all_status: push one status per backend whose URL is
non-empty, in the fixed source order; f gives the outcome of each
adapter's (independent) call. -/
def get_all_status (c : Config) (f : Backend → ServiceStatus) : List ServiceStatus :=
  (if !c.plex_url.isEmpty then [f .plex] else [])
  ++ (if !c.sonarr_url.isEmpty then [f .sonarr] else [])
  ++ (if !c.radarr_url.isEmpty then [f .radarr] else [])
  ++ (if !c.jackett_url.isEmpty then [f .jackett] else [])
  ++ (if !c.transmission_url.isEmpty then [f .transmission] else [])
  ++ (if !c.jellyfin_url.isEmpty then [f .jellyfin] else [])
  ++ (if !c.emby_url.isEmpty then [f .emby] else [])

/-- A stored configuration whose transmission username is non-empty,
used to exercise the masking path. -/
def exCfgUser : Config :=
  ⟨[], [], [], [], [], [], "http://t".toList, "alice".toList, "pw".toList,
   [], [], [], [], [], []⟩

/-- An incoming payload that echoes the sentinel in every secret slot,
including the transmission username. -/
def exPayloadSentinel : Config :=
  ⟨[], maskSentinel, [], maskSentinel, [], maskSentinel, "http://t".toList,
   maskSentinel, maskSentinel, [], maskSentinel, [], maskSentinel, [], maskSentinel⟩

/-- An attribute fragment whose value is exactly 200 characters long. -/
def exFrag200 : List Char :=
  "id=\"".toList ++ List.replicate 200 'a' ++ ['"']

/-- A concrete transport for exercising the 409 handshake: the first
POST is answered 409 with session header "abc", the retry is answered
500 with a parseable body. -/
def exSend : Nat → Except (List Char) RpcResp := fun n =>
  if n = 0 then .ok ⟨409, some "abc".toList, none⟩
  else .ok ⟨500, none, some (Json.str "ok".toList)⟩

/-! Supporting lemmas about the text-scan primitives. -/

theorem take_len_append (u w : List Char) : (u ++ w).take u.length = u := by
  induction u with
  | nil => simp
  | cons a t ih => simp [ih]

theorem drop_len_append (u w : List Char) : (u ++ w).drop u.length = w := by
  induction u with
  | nil => simp
  | cons a t ih => simp [ih]

theorem isPfx_iff (n s : List Char) : isPfx n s = true ↔ ∃ t, s = n ++ t := by
  induction n generalizing s with
  | nil => simp [isPfx]
  | cons a as ih =>
    cases s with
    | nil => simp [isPfx]
    | cons b bs =>
      simp only [isPfx, Bool.and_eq_true, beq_iff_eq, ih, List.cons_append,
        List.cons_eq_cons]
      constructor
      · rintro ⟨h1, t, h2⟩
        exact ⟨t, h1.symm, h2⟩
      · rintro ⟨t, h1, h2⟩
        exact ⟨h1.symm, t, h2⟩

theorem isPfx_append_self (n t : List Char) : isPfx n (n ++ t) = true :=
  (isPfx_iff n (n ++ t)).mpr ⟨t, rfl⟩

theorem findSub_none (s n : List Char) (h : findSub s n = none) :
    ∀ k, isPfx n (List.drop k s) = false := by
  induction s with
  | nil =>
    intro k
    rw [findSub] at h
    by_cases hp : isPfx n [] = true
    · simp [hp] at h
    · simpa [List.drop_nil] using Bool.not_eq_true _ ▸ hp
  | cons a t ih =>
    intro k
    rw [findSub] at h
    by_cases hp : isPfx n (a :: t) = true
    · simp [hp] at h
    · cases k with
      | zero =>
        simpa using Bool.not_eq_true _ ▸ hp
      | succ k =>
        have ht : findSub t n = none := by
          simp only [hp, if_false] at h
          exact Option.map_eq_none.mp h
        simpa using ih ht k

theorem findSub_some (s n : List Char) :
    ∀ i, findSub s n = some i →
      isPfx n (List.drop i s) = true ∧ ∀ k, k < i → isPfx n (List.drop k s) = false := by
  induction s with
  | nil =>
    intro i h
    rw [findSub] at h
    by_cases hp : isPfx n [] = true
    · simp only [hp, if_true, Option.some.injEq] at h
      subst h
      exact ⟨by simpa using hp, by omega⟩
    · simp [hp] at h
  | cons a t ih =>
    intro i h
    rw [findSub] at h
    by_cases hp : isPfx n (a :: t) = true
    · simp only [hp, if_true, Option.some.injEq] at h
      subst h
      exact ⟨by simpa using hp, by omega⟩
    · simp only [hp, if_false] at h
      obtain ⟨j, hj, rfl⟩ := Option.map_eq_some.mp h
      obtain ⟨h1, h2⟩ := ih j hj
      refine ⟨by simpa using h1, ?_⟩
      intro k hk
      cases k with
      | zero => simpa using Bool.not_eq_true _ ▸ hp
      | succ k => simpa using h2 k (by omega)

theorem findSub_eq_some_of (s n : List Char) :
    ∀ i, isPfx n (List.drop i s) = true →
      (∀ k, k < i → isPfx n (List.drop k s) = false) → findSub s n = some i := by
  induction s with
  | nil =>
    intro i h1 h2
    have hi : i = 0 := by
      by_contra hne
      have := h2 0 (by omega)
      simp only [List.drop_nil] at h1 this
      rw [h1] at this
      exact absurd this (by simp)
    subst hi
    rw [findSub]
    simp only [List.drop_nil] at h1
    simp [h1]
  | cons a t ih =>
    intro i h1 h2
    cases i with
    | zero =>
      rw [findSub]
      simp only [List.drop] at h1
      simp [h1]
    | succ i =>
      have hp : isPfx n (a :: t) = false := by simpa using h2 0 (by omega)
      rw [findSub]
      simp only [hp]
      have := ih i (by simpa using h1) (fun k hk => by simpa using h2 (k + 1) (by omega))
      simp [this]

theorem containsSub_of_pfx (s n : List Char) (k : Nat)
    (h : isPfx n (List.drop k s) = true) : containsSub s n = true := by
  unfold containsSub
  cases hf : findSub s n with
  | none => exact absurd h (by simp [findSub_none s n hf k])
  | some i => rfl

theorem findChar_append (u w : List Char) (c : Char) (h : c ∉ u) :
    findChar (u ++ c :: w) c = some u.length := by
  induction u with
  | nil => simp [findChar]
  | cons a t ih =>
    have h1 : ¬c = a := by simp only [List.mem_cons, not_or] at h; exact h.1
    have h2 : c ∉ t := by simp only [List.mem_cons, not_or] at h; exact h.2
    have ha : (a == c) = false := by
      simpa using fun he => h1 he.symm
    show findChar (a :: (t ++ c :: w)) c = some (t.length + 1)
    rw [findChar, ha, ih h2]
    simp

theorem findChar_some (s : List Char) (c : Char) :
    ∀ e, findChar s c = some e →
      ∃ u w, s = u ++ c :: w ∧ u.length = e ∧ c ∉ u := by
  induction s with
  | nil => intro e h; simp [findChar] at h
  | cons a t ih =>
    intro e h
    rw [findChar] at h
    by_cases hac : (a == c) = true
    · simp only [hac, if_true, Option.some.injEq] at h
      subst h
      exact ⟨[], t, by simp [beq_iff_eq.mp hac], rfl, by simp⟩
    · simp only [hac, if_false] at h
      obtain ⟨j, hj, rfl⟩ := Option.map_eq_some.mp h
      obtain ⟨u, w, hs, hl, hm⟩ := ih j hj
      refine ⟨a :: u, w, by simp [hs], by simp [hl], ?_⟩
      simp only [List.mem_cons, not_or]
      exact ⟨fun he => hac (by simp [he]), hm⟩

theorem findSub_marker_bound (s : List Char) (st : Nat)
    (hf : findSub s indexerMarker = some st) : st + 9 ≤ s.length := by
  have h := (findSub_some _ _ st hf).1
  obtain ⟨u, hu⟩ := (isPfx_iff _ _).mp h
  have hlen : (List.drop st s).length = 9 + u.length := by
    rw [hu]; simp [indexerMarker]; omega
  have hd : (List.drop st s).length = s.length - st := by simp
  omega

theorem findSub_nil_marker : findSub [] indexerMarker = none := by decide

theorem scanLoop_nil (f : Nat) : scanLoop f [] = [] := by
  cases f with
  | zero => rfl
  | succ k => simp [scanLoop, findSub_nil_marker]

theorem countLoop_nil (f : Nat) : countLoop f [] = 0 := by
  cases f with
  | zero => rfl
  | succ k => simp [countLoop, findSub_nil_marker]

/-- Fuel adequacy for the fuel-indexed embedding of the list_indexers
while-loop: any fuel of at least the document length computes the same
records, so scanIndexers is the loop's limit. -/
theorem scanLoop_fuel (f1 : Nat) : ∀ f2 s, s.length ≤ f1 → s.length ≤ f2 →
    scanLoop f1 s = scanLoop f2 s := by
  induction f1 with
  | zero =>
    intro f2 s h1 _
    have hs : s = [] := List.length_eq_zero.mp (by omega)
    subst hs
    rw [scanLoop_nil, scanLoop_nil]
  | succ m ih =>
    intro f2 s h1 h2
    cases s with
    | nil => rw [scanLoop_nil, scanLoop_nil]
    | cons a t =>
      cases f2 with
      | zero => simp at h2
      | succ k =>
        simp only [scanLoop]
        cases hf : findSub (a :: t) indexerMarker with
        | none => simp [hf]
        | some st =>
          simp only [hf]
          have hb := findSub_marker_bound _ _ hf
          have hr : ((a :: t).drop (st + 9)).length = (a :: t).length - (st + 9) := by
            simp
          congr 1
          exact ih k _ (by omega) (by omega)

/-- Fuel adequacy for the count_configured_indexers loop. -/
theorem countLoop_fuel (f1 : Nat) : ∀ f2 s, s.length ≤ f1 → s.length ≤ f2 →
    countLoop f1 s = countLoop f2 s := by
  induction f1 with
  | zero =>
    intro f2 s h1 _
    have hs : s = [] := List.length_eq_zero.mp (by omega)
    subst hs
    rw [countLoop_nil, countLoop_nil]
  | succ m ih =>
    intro f2 s h1 h2
    cases s with
    | nil => rw [countLoop_nil, countLoop_nil]
    | cons a t =>
      cases f2 with
      | zero => simp at h2
      | succ k =>
        simp only [countLoop]
        cases hf : findSub (a :: t) indexerMarker with
        | none => simp [hf]
        | some pos =>
          simp only [hf]
          have hb := findSub_marker_bound _ _ hf
          have hr : ((a :: t).drop (pos + 9)).length = (a :: t).length - (pos + 9) := by
            simp
          congr 1
          exact ih k _ (by omega) (by omega)

/-- C9 (amended): extract_attr finds the first occurrence of the needle
attr=" in the fragment; it returns exactly the text up to the next
double quote — never truncated — when that text is strictly shorter than
200 characters, and returns none when the value is 200 characters or
longer or no closing quote exists. -/
theorem extract_attr_characterization (s a v : List Char) :
    extract_attr s a = some v ↔
      ∃ pre post,
        s = pre ++ a ++ '=' :: '"' :: (v ++ '"' :: post) ∧
        (∀ k, k < pre.length → isPfx (a ++ ['=', '"']) (List.drop k s) = false) ∧
        '"' ∉ v ∧ v.length < 200 := by
  constructor
  · intro h
    simp only [extract_attr] at h
    cases hf : findSub s (a ++ ['=', '"']) with
    | none =>
      simp only [hf] at h
      exact Option.noConfusion h
    | some st =>
      simp only [hf] at h
      obtain ⟨hpfx, hmin⟩ := findSub_some s (a ++ ['=', '"']) st hf
      obtain ⟨u, hu⟩ := (isPfx_iff _ _).mp hpfx
      have h1 : (List.drop st s).length = s.length - st := by simp
      have h2 : 0 < (List.drop st s).length := by
        rw [hu]
        simp only [List.length_append, List.length_cons, List.length_nil]
        omega
      have hstle : st ≤ s.length := by omega
      have hs2 : s.drop (st + (a ++ ['=', '"']).length) = u := by
        rw [← List.drop_drop, hu, drop_len_append]
      rw [hs2] at h
      cases hc : findChar u '"' with
      | none =>
        simp only [hc] at h
        exact Option.noConfusion h
      | some e =>
        simp only [hc] at h
        by_cases he : e < 200
        · simp only [he, if_true, Option.some.injEq] at h
          obtain ⟨u2, w2, huw, hlen2, hnq⟩ := findChar_some u '"' e hc
          have hv : v = u2 := by
            rw [← h, huw, ← hlen2, take_len_append]
          have hpre : (s.take st).length = st := by
            simp only [List.length_take]
            omega
          refine ⟨s.take st, w2, ?_, ?_, ?_, ?_⟩
          · conv_lhs => rw [← List.take_append_drop st s, hu, huw]
            rw [hv]
            simp [List.append_assoc]
          · intro k hk
            rw [hpre] at hk
            exact hmin k hk
          · rw [hv]; exact hnq
          · rw [hv, hlen2]; exact he
        · simp only [he, if_false] at h
          exact Option.noConfusion h
  · rintro ⟨pre, post, hs, hmin, hnq, hlen⟩
    have hsplit : s = pre ++ ((a ++ ['=', '"']) ++ (v ++ '"' :: post)) := by
      rw [hs]; simp [List.append_assoc]
    have hdrop2 : s.drop pre.length = (a ++ ['=', '"']) ++ (v ++ '"' :: post) := by
      conv_lhs => rw [hsplit]
      exact drop_len_append _ _
    have hfind : findSub s (a ++ ['=', '"']) = some pre.length := by
      apply findSub_eq_some_of
      · rw [hdrop2]
        exact isPfx_append_self _ _
      · exact hmin
    have hs2v : s.drop (pre.length + (a ++ ['=', '"']).length) = v ++ '"' :: post := by
      rw [← List.drop_drop, hdrop2, drop_len_append]
    simp only [extract_attr, hfind]
    rw [hs2v, findChar_append v post '"' hnq]
    simp [hlen, take_len_append]

/-- C9 counterexample: an attribute value of exactly 200 characters —
which does not exceed 200 characters — is rejected by extract_attr (the
code requires the length to be strictly below 200), while the fragment
does contain the needle at position 0 and a closing quote 200 characters
after it. -/
theorem extract_attr_len200_rejected :
    extract_attr exFrag200 "id".toList = none ∧
    findSub exFrag200 ("id".toList ++ ['=', '"']) = some 0 ∧
    findChar (exFrag200.drop 4) '"' = some 200 := by
  refine ⟨by decide, by decide, by decide⟩

/-! Claim theorems: the Jackett scanning passes. -/

/-- C5, code evaluated at the failing input: on exDoc5 — two indexer
fragments of which only the second carries configured="true", so the
spec-level count M is 1 — the listing scan produces two records (the
first fragment is listed because extract_attr finds the token beyond the
fragment boundary) and the counting pass also returns 2 (the 300
character window from the first marker reaches into the second
fragment); both passes disagree with M. -/
theorem scan_count_disagree_with_spec :
    scanIndexers exDoc5 =
      [⟨"a".toList, "a".toList, "public".toList, true⟩,
       ⟨"b".toList, "b".toList, "public".toList, true⟩] ∧
    count_configured_indexers exDoc5 = 2 ∧
    specConfiguredCount exDoc5 = 1 ∧
    (specFragments exDoc5.length exDoc5).map
      (fun f => containsSub f ("configured=\"true\"".toList)) = [false, true] := by
  refine ⟨by decide, by decide, by decide, by decide⟩

/-- C10: on exDoc10, whose first indexer fragment — the 26 characters
before the second marker — contains neither a title element nor any
configured attribute, the record produced for that first fragment
nevertheless carries name "BT" (the second fragment's title, not the
default of its own id "a") and is marked configured: extract_attr and
extract_tag search the whole remaining document past the fragment's
end. -/
theorem scan_cross_fragment_pickup :
    scanIndexers exDoc10 =
      [⟨"a".toList, "BT".toList, "public".toList, true⟩,
       ⟨"b".toList, "BT".toList, "public".toList, true⟩] ∧
    containsSub (exDoc10.take 26) ("<title>".toList) = false ∧
    containsSub (exDoc10.take 26) ("configured".toList) = false := by
  refine ⟨by decide, by decide, by decide⟩

/-! Claim theorems: the credential masking / merge protocol. -/

/-- C2 counterexample: exCfgUser stores the non-empty transmission
username "alice"; the displayed configuration built by the read path
still carries "alice" — a secret field of the user/password pair that is
neither masked nor empty. -/
theorem mask_leaves_transmission_user :
    (get_dashboard_config exCfgUser).transmission_user = "alice".toList ∧
    "alice".toList ≠ maskSentinel ∧ "alice".toList ≠ ([] : List Char) := by
  refine ⟨rfl, by decide, by decide⟩

/-- C2 (amended): the read path replaces each of the seven non-empty
secret fields sonarr_key, radarr_key, jackett_key, transmission_pass,
plex_token, jellyfin_key and emby_key with the sentinel and leaves empty
ones empty, while every URL field and the transmission username are
passed through unchanged. -/
theorem get_dashboard_config_spec (c : Config) :
    ((get_dashboard_config c).sonarr_key
      = if c.sonarr_key = [] then [] else maskSentinel) ∧
    ((get_dashboard_config c).radarr_key
      = if c.radarr_key = [] then [] else maskSentinel) ∧
    ((get_dashboard_config c).jackett_key
      = if c.jackett_key = [] then [] else maskSentinel) ∧
    ((get_dashboard_config c).transmission_pass
      = if c.transmission_pass = [] then [] else maskSentinel) ∧
    ((get_dashboard_config c).plex_token
      = if c.plex_token = [] then [] else maskSentinel) ∧
    ((get_dashboard_config c).jellyfin_key
      = if c.jellyfin_key = [] then [] else maskSentinel) ∧
    ((get_dashboard_config c).emby_key
      = if c.emby_key = [] then [] else maskSentinel) ∧
    (get_dashboard_config c).sonarr_url = c.sonarr_url ∧
    (get_dashboard_config c).radarr_url = c.radarr_url ∧
    (get_dashboard_config c).jackett_url = c.jackett_url ∧
    (get_dashboard_config c).transmission_url = c.transmission_url ∧
    (get_dashboard_config c).transmission_user = c.transmission_user ∧
    (get_dashboard_config c).plex_url = c.plex_url ∧
    (get_dashboard_config c).jellyfin_url = c.jellyfin_url ∧
    (get_dashboard_config c).emby_url = c.emby_url := by
  refine ⟨?_, ?_, ?_, ?_, ?_, ?_, ?_, rfl, rfl, rfl, rfl, rfl, rfl, rfl, rfl⟩ <;>
    simp only [get_dashboard_config] <;>
    split <;> simp_all [List.isEmpty_iff]

/-- C3 counterexample: with stored configuration exCfgUser (transmission
username "alice") and an incoming payload echoing the sentinel in the
username slot, the write path keeps the sentinel instead of restoring
"alice". -/
theorem merge_overwrites_transmission_user :
    (update_dashboard_config exCfgUser exPayloadSentinel).transmission_user
      = maskSentinel ∧
    exCfgUser.transmission_user = "alice".toList ∧
    exPayloadSentinel.transmission_user = maskSentinel ∧
    "alice".toList ≠ maskSentinel := by
  refine ⟨rfl, rfl, rfl, by decide⟩

/-- C3 (amended): the write path resolves each of the seven secret
fields sonarr_key, radarr_key, jackett_key, transmission_pass,
plex_token, jellyfin_key, emby_key against the stored value exactly when
the incoming value equals the sentinel (so an incoming empty string
clears the secret), and takes every URL field and the transmission
username from the incoming payload verbatim. -/
theorem update_dashboard_config_spec (stored payload : Config) :
    ((update_dashboard_config stored payload).sonarr_key
      = if payload.sonarr_key = maskSentinel then stored.sonarr_key else payload.sonarr_key) ∧
    ((update_dashboard_config stored payload).radarr_key
      = if payload.radarr_key = maskSentinel then stored.radarr_key else payload.radarr_key) ∧
    ((update_dashboard_config stored payload).jackett_key
      = if payload.jackett_key = maskSentinel then stored.jackett_key else payload.jackett_key) ∧
    ((update_dashboard_config stored payload).transmission_pass
      = if payload.transmission_pass = maskSentinel then stored.transmission_pass else payload.transmission_pass) ∧
    ((update_dashboard_config stored payload).plex_token
      = if payload.plex_token = maskSentinel then stored.plex_token else payload.plex_token) ∧
    ((update_dashboard_config stored payload).jellyfin_key
      = if payload.jellyfin_key = maskSentinel then stored.jellyfin_key else payload.jellyfin_key) ∧
    ((update_dashboard_config stored payload).emby_key
      = if payload.emby_key = maskSentinel then stored.emby_key else payload.emby_key) ∧
    (update_dashboard_config stored payload).sonarr_url = payload.sonarr_url ∧
    (update_dashboard_config stored payload).radarr_url = payload.radarr_url ∧
    (update_dashboard_config stored payload).jackett_url = payload.jackett_url ∧
    (update_dashboard_config stored payload).transmission_url = payload.transmission_url ∧
    (update_dashboard_config stored payload).transmission_user = payload.transmission_user ∧
    (update_dashboard_config stored payload).plex_url = payload.plex_url ∧
    (update_dashboard_config stored payload).jellyfin_url = payload.jellyfin_url ∧
    (update_dashboard_config stored payload).emby_url = payload.emby_url :=
  ⟨rfl, rfl, rfl, rfl, rfl, rfl, rfl, rfl, rfl, rfl, rfl, rfl, rfl, rfl, rfl⟩

/-- One secret slot of the merge-after-mask round trip. -/
theorem mask_merge_field (stored : List Char) :
    (if (if stored.isEmpty then stored else maskSentinel) = maskSentinel
     then stored else (if stored.isEmpty then stored else maskSentinel)) = stored := by
  by_cases h : stored.isEmpty <;> simp [h]

/-- C4: merging a configuration's own masked form back into it
reproduces the stored configuration exactly — non-empty secrets come
back as the sentinel and are resolved to the stored value, empty secrets
come back empty and are taken verbatim, and URLs and the transmission
username round-trip unchanged. -/
theorem merge_mask_roundtrip (c : Config) :
    update_dashboard_config c (get_dashboard_config c) = c := by
  obtain ⟨f1, f2, f3, f4, f5, f6, f7, f8, f9, f10, f11, f12, f13, f14, f15⟩ := c
  simp only [update_dashboard_config, get_dashboard_config, Config.mk.injEq]
  refine ⟨?_, ?_, ?_, ?_, ?_, ?_, ?_, ?_, ?_, ?_, ?_, ?_, ?_, ?_, ?_⟩ <;>
    first
      | trivial
      | exact mask_merge_field _

/-! Claim theorems: the Transmission RPC handshake. -/

/-- C1: when the first POST of rpc_request is answered with status
exactly 409, the client issues exactly one retry — a second request to
the same endpoint with the same auth and the identical body, carrying as
X-Transmission-Session-Id the value of the 409 response's header (the
empty string when the header is absent) — and never a third request;
whenever the transport answers the retry, the result is the retry's
parsed body (a parse failure gives the parse error), irrespective of the
retry's own status code. -/
theorem rpc_request_409_retry (send : Nat → Except (List Char) RpcResp)
    (url user pass : List Char) (body : Json) (r : RpcResp)
    (h0 : send 0 = .ok r) (h409 : r.status = 409) :
    (rpc_request send url user pass body).2 =
      [⟨url ++ "/transmission/rpc".toList, none,
        (if user.isEmpty then none else some (user, pass)), body⟩,
       ⟨url ++ "/transmission/rpc".toList, some (r.sessionId.getD []),
        (if user.isEmpty then none else some (user, pass)), body⟩] ∧
    (∀ r2, send 1 = .ok r2 →
      (rpc_request send url user pass body).1 =
        (match r2.parsed with
         | some v => .ok v
         | none => .error .parse)) ∧
    (∀ e, send 1 = .error e →
      (rpc_request send url user pass body).1 = .error (.transport e)) := by
  refine ⟨?_, ?_, ?_⟩
  · cases h1 : send 1 with
    | error e => simp [rpc_request, h0, h409, h1]
    | ok r2 => cases hp : r2.parsed <;> simp [rpc_request, h0, h409, h1, hp]
  · intro r2 h1
    cases hp : r2.parsed <;> simp [rpc_request, h0, h409, h1, hp]
  · intro e h1
    simp [rpc_request, h0, h409, h1]

/-- Witness for rpc_request_409_retry at the concrete transport exSend:
the first response is a 409 carrying session id "abc". -/
theorem rpc_request_409_retry_witness :
    exSend 0 = .ok ⟨409, some "abc".toList, none⟩ ∧
    ((rpc_request exSend [] [] [] Json.null).2 =
      [⟨"/transmission/rpc".toList, none, none, Json.null⟩,
       ⟨"/transmission/rpc".toList, some "abc".toList, none, Json.null⟩] ∧
     (∀ r2, exSend 1 = .ok r2 →
       (rpc_request exSend [] [] [] Json.null).1 =
         (match r2.parsed with
          | some v => .ok v
          | none => .error .parse)) ∧
     (∀ e, exSend 1 = .error e →
       (rpc_request exSend [] [] [] Json.null).1 = .error (.transport e))) :=
  ⟨rfl, rpc_request_409_retry exSend [] [] [] Json.null
    ⟨409, some "abc".toList, none⟩ rfl rfl⟩

/-! Claim theorems: adapter error paths. -/

/-- C6 counterexample: the Jackett adapter answering HTTP 500 with an
empty body yields active = false but a message that does not contain the
substring "500" (the message is derived solely from the body excerpt,
not from the status code). -/
theorem jackett_500_message_lacks_code :
    (jackett_get_status (.ok (500, [])) none).active = false ∧
    containsSub (jackett_get_status (.ok (500, [])) none).message ("500".toList)
      = false := by
  refine ⟨by decide, by decide⟩

/-- C6 (amended): on a non-success primary status, every adapter —
Sonarr, Plex, Emby, Transmission, Jackett from src/ and the
spec-modelled Radarr and Jellyfin — returns active = false with extras
absent; all of them except Jackett (and outside Transmission's 409
carve-out) put "HTTP " followed by the status display — which contains
the code's digits — in the message, while the Jackett adapter's message
is "HTTP — " followed by the first 80 characters of the response body,
with no status code. -/
theorem status_http_failure (st : Nat) (h : isSuccess st = false) (h409 : st ≠ 409)
    (sp rp : Option (List Char)) (pp : Except (List Char) MediaContainer)
    (ep jp : Except (List Char) (List EmbySession)) (bp : Option Json)
    (ex1 ex2 ex3 : Json) (body : List Char) (sec : Option (List Char)) :
    sonarr_get_status (.ok (st, sp)) ex1 =
      ⟨"Sonarr".toList, false, "HTTP ".toList ++ statusDisplay st, none, none⟩ ∧
    radarr_get_status (.ok (st, rp)) ex3 =
      ⟨"Radarr".toList, false, "HTTP ".toList ++ statusDisplay st, none, none⟩ ∧
    plex_get_status (.ok (st, pp)) =
      ⟨"Plex".toList, false, "HTTP ".toList ++ statusDisplay st, none, none⟩ ∧
    emby_get_status (.ok (st, ep)) =
      ⟨"Emby".toList, false, "HTTP ".toList ++ statusDisplay st, none, none⟩ ∧
    jellyfin_get_status (.ok (st, jp)) =
      ⟨"Jellyfin".toList, false, "HTTP ".toList ++ statusDisplay st, none, none⟩ ∧
    transmission_get_status (.ok (st, bp)) ex2 =
      ⟨"Transmission".toList, false, "HTTP ".toList ++ statusDisplay st, none, none⟩ ∧
    jackett_get_status (.ok (st, body)) sec =
      ⟨"Jackett".toList, false, "HTTP — ".toList ++ body.take 80, none, none⟩ ∧
    containsSub ("HTTP ".toList ++ statusDisplay st) (natToChars st) = true := by
  refine ⟨?_, ?_, ?_, ?_, ?_, ?_, ?_, ?_⟩
  · simp [sonarr_get_status, h]
  · simp [radarr_get_status, h]
  · simp [plex_get_status, h]
  · simp [emby_get_status, h]
  · simp [jellyfin_get_status, h]
  · simp [transmission_get_status, h, h409]
  · simp [jackett_get_status, h]
  · apply containsSub_of_pfx _ _ ("HTTP ".toList).length
    rw [drop_len_append]
    unfold statusDisplay
    exact isPfx_append_self _ _

/-- Witness for status_http_failure at status 500 and concrete parse
outcomes and extras. -/
theorem status_http_failure_witness :
    isSuccess 500 = false ∧ (500 : Nat) ≠ 409 ∧
    (sonarr_get_status (.ok (500, none)) Json.null =
      ⟨"Sonarr".toList, false, "HTTP ".toList ++ statusDisplay 500, none, none⟩ ∧
    radarr_get_status (.ok (500, none)) Json.null =
      ⟨"Radarr".toList, false, "HTTP ".toList ++ statusDisplay 500, none, none⟩ ∧
    plex_get_status (.ok (500, .error [])) =
      ⟨"Plex".toList, false, "HTTP ".toList ++ statusDisplay 500, none, none⟩ ∧
    emby_get_status (.ok (500, .error [])) =
      ⟨"Emby".toList, false, "HTTP ".toList ++ statusDisplay 500, none, none⟩ ∧
    jellyfin_get_status (.ok (500, .error [])) =
      ⟨"Jellyfin".toList, false, "HTTP ".toList ++ statusDisplay 500, none, none⟩ ∧
    transmission_get_status (.ok (500, none)) Json.null =
      ⟨"Transmission".toList, false, "HTTP ".toList ++ statusDisplay 500, none, none⟩ ∧
    jackett_get_status (.ok (500, [])) none =
      ⟨"Jackett".toList, false, "HTTP — ".toList ++ List.take 80 [], none, none⟩ ∧
    containsSub ("HTTP ".toList ++ statusDisplay 500) (natToChars 500) = true) :=
  ⟨by decide, by decide,
   status_http_failure 500 (by decide) (by decide) none none (.error [])
     (.error []) (.error []) none Json.null Json.null Json.null [] none⟩

/-- C7 counterexample: the Transmission adapter answering 200 with a
body that does not parse yields message "Running" — not a parse-failure
message — and extras present, not absent. -/
theorem transmission_parse_failure_extras_present :
    (transmission_get_status (.ok (200, none)) (Json.obj [])).message
      = "Running".toList ∧
    (transmission_get_status (.ok (200, none)) (Json.obj [])).extras ≠ none := by
  refine ⟨rfl, by simp [transmission_get_status, isSuccess]⟩

/-- C7 (amended): on a success status whose body fails to parse as the
expected shape, the adapters that do parse their primary body — Sonarr,
Plex, Emby from src/ and the spec-modelled Radarr and Jellyfin — return
active = true, a parse-error message and no extras; the Transmission and
Jackett adapters never parse the primary body, so on any success status
they return active = true with message "Running" and extras present. -/
theorem status_parse_failure (st : Nat) (h : isSuccess st = true)
    (e1 e2 e3 : List Char) (ex ex2 : Json) (body : List Char) (sec : Option (List Char)) :
    sonarr_get_status (.ok (st, none)) ex =
      ⟨"Sonarr".toList, true, "Parse Error".toList, none, none⟩ ∧
    radarr_get_status (.ok (st, none)) ex2 =
      ⟨"Radarr".toList, true, "Parse Error".toList, none, none⟩ ∧
    plex_get_status (.ok (st, .error e1)) =
      ⟨"Plex".toList, true, "Parse Error: ".toList ++ e1, none, none⟩ ∧
    emby_get_status (.ok (st, .error e2)) =
      ⟨"Emby".toList, true, "Parse Error: ".toList ++ e2, none, none⟩ ∧
    jellyfin_get_status (.ok (st, .error e3)) =
      ⟨"Jellyfin".toList, true, "Parse Error: ".toList ++ e3, none, none⟩ ∧
    transmission_get_status (.ok (st, none)) ex =
      ⟨"Transmission".toList, true, "Running".toList, none, some ex⟩ ∧
    (jackett_get_status (.ok (st, body)) sec).active = true ∧
    (jackett_get_status (.ok (st, body)) sec).message = "Running".toList ∧
    (jackett_get_status (.ok (st, body)) sec).extras.isSome = true := by
  refine ⟨?_, ?_, ?_, ?_, ?_, ?_, ?_, ?_, ?_⟩
  · simp [sonarr_get_status, h]
  · simp [radarr_get_status, h]
  · simp [plex_get_status, h]
  · simp [emby_get_status, h]
  · simp [jellyfin_get_status, h]
  · simp [transmission_get_status, h]
  · simp [jackett_get_status, h]
  · simp [jackett_get_status, h]
  · simp [jackett_get_status, h]

/-- Witness for status_parse_failure at status 200 with concrete parse
errors, extras and secondary data. -/
theorem status_parse_failure_witness :
    isSuccess 200 = true ∧
    (sonarr_get_status (.ok (200, none)) Json.null =
      ⟨"Sonarr".toList, true, "Parse Error".toList, none, none⟩ ∧
    radarr_get_status (.ok (200, none)) Json.null =
      ⟨"Radarr".toList, true, "Parse Error".toList, none, none⟩ ∧
    plex_get_status (.ok (200, .error "bad".toList)) =
      ⟨"Plex".toList, true, "Parse Error: ".toList ++ "bad".toList, none, none⟩ ∧
    emby_get_status (.ok (200, .error "bad".toList)) =
      ⟨"Emby".toList, true, "Parse Error: ".toList ++ "bad".toList, none, none⟩ ∧
    jellyfin_get_status (.ok (200, .error "bad".toList)) =
      ⟨"Jellyfin".toList, true, "Parse Error: ".toList ++ "bad".toList, none, none⟩ ∧
    transmission_get_status (.ok (200, none)) Json.null =
      ⟨"Transmission".toList, true, "Running".toList, none, some Json.null⟩ ∧
    (jackett_get_status (.ok (200, [])) none).active = true ∧
    (jackett_get_status (.ok (200, [])) none).message = "Running".toList ∧
    (jackett_get_status (.ok (200, [])) none).extras.isSome = true) :=
  ⟨by decide,
   status_parse_failure 200 (by decide) "bad".toList "bad".toList "bad".toList
     Json.null Json.null [] none⟩

/-! Claim theorems: the status aggregator. -/

theorem filter_map_cons (p : Backend → Bool) (f : Backend → ServiceStatus)
    (b : Backend) (l : List Backend) :
    ((b :: l).filter p).map f = (if p b then [f b] else []) ++ (l.filter p).map f := by
  by_cases h : p b <;> simp [List.filter_cons, h]

/-- C8: for every configuration and every assignment f of outcomes to
the seven adapter calls, the aggregate poll returns exactly the statuses
of the backends whose connection URL is non-empty, in the fixed order
plex, sonarr, radarr, jackett, transmission, jellyfin, emby; each entry
is f of its own backend, so no backend's outcome — f is arbitrary, so in
particular any failure status — can prevent another configured backend
from appearing, and inclusion depends only on that backend's URL. -/
theorem get_all_status_spec (c : Config) (f : Backend → ServiceStatus) :
    get_all_status c f =
      (backendOrder.filter (fun b => !(urlOf c b).isEmpty)).map f := by
  simp only [backendOrder, filter_map_cons, urlOf, List.filter_nil, List.map_nil,
    List.append_nil, get_all_status, List.append_assoc]
